import Mathlib

/-!
Verification development for the WeaveFeed account microservice.

Shallow embedding of the parts of the repository the specification talks
about: the health-reporting model (`service_health_enums.py`,
`state_object.py`, `api/health_api_view.py`), the microservice lifecycle
(`base_microservice_application.py`), the schema-driven configuration
resolver (`configuration/configuration.py`, `configuration_setup.py`),
the resilient database-pool bootstrap (`services/accounts/__init__.py`)
and the user data-access / data-service layer
(`data_access_layer/user_data_access_layer.py`,
`data_services/user_data_service.py`).

External collaborators (asyncpg, configparser, bcrypt, the HTTP router)
are modelled as parameters or outcome oracles, exactly at the boundary
where the repository's own code consumes them.  Python exceptions are
modelled with `Except String`; Python `None` with `Option`.
-/

set_option autoImplicit false

namespace WeaveFeed

/-! ## Health enums (`weavefeed_common/service_health_enums.py`) -/

/-- `ServiceDegradationStatus` enum: HEALTHY / DEGRADED / CRITICAL. -/
inductive ServiceDegradationStatus where
  | HEALTHY
  | DEGRADED
  | CRITICAL
deriving DecidableEq, Repr

/-- The `.value` attribute of `ServiceDegradationStatus` members. -/
def ServiceDegradationStatus.value : ServiceDegradationStatus → String
  | .HEALTHY => "healthy"
  | .DEGRADED => "degraded"
  | .CRITICAL => "critical"

/-- `ComponentDegradationLevel` enum: NONE / PART_DEGRADED / FULLY_DEGRADED. -/
inductive ComponentDegradationLevel where
  | NONE
  | PART_DEGRADED
  | FULLY_DEGRADED
deriving DecidableEq, Repr

/-- The `.value` attribute of `ComponentDegradationLevel` members. -/
def ComponentDegradationLevel.value : ComponentDegradationLevel → String
  | .NONE => "none"
  | .PART_DEGRADED => "partial"
  | .FULLY_DEGRADED => "fully_degraded"

/-- Attribute access `member.view` on a `ComponentDegradationLevel` member.
Python `Enum` members have no attribute named `view`, so the access in
`health_api_view.py` line 73 raises `AttributeError`; modelled as `none`. -/
def ComponentDegradationLevel.view : ComponentDegradationLevel → Option String :=
  fun _ => none

/-! ## `state_object.py` -/

/-- `StateObject` dataclass: per-process health record. -/
structure StateObject where
  service_health : ComponentDegradationLevel := .NONE
  service_health_state_str : String := ""
  database_health : ComponentDegradationLevel := .NONE
  database_health_state_str : String := ""
  version : String := ""
  startup_time : Int := 0
deriving DecidableEq, Repr

/-- A fresh `StateObject()` (the dataclass defaults; `startup_time` is the
boot timestamp, an opaque integer). -/
def StateObject.initial : StateObject := {}

/-! ## `api/health_api_view.py` -/

/-- One entry of the `issues` list built by `HealthApiView.health`. -/
structure HealthIssue where
  component : String
  status : String
  details : String
deriving DecidableEq, Repr

/-- The JSON body (plus HTTP status) returned by `HealthApiView.health`. -/
structure HealthResponse where
  status : String
  dependencies_database : String
  dependencies_service : String
  issues : Option (List HealthIssue)
  uptime_seconds : Int
  version : String
  http_status : Nat
deriving DecidableEq, Repr

namespace HealthApiView

/-- `HealthApiView.health`, lines 57-98 of `api/health_api_view.py`.
`now` is `int(time.time())`.  The service branch accesses
`self._state_object.service_health.view` (line 73); since `Enum` members
have no `view` attribute, that access raises `AttributeError`, modelled
as `Except.error`. -/
def health (s : StateObject) (now : Int) : Except String HealthResponse :=
  let uptime : Int := now - s.startup_time
  let issuesDb : List HealthIssue :=
    if s.database_health ≠ ComponentDegradationLevel.NONE then
      [⟨"database", s.database_health.value, s.database_health_state_str⟩]
    else []
  let issuesE : Except String (List HealthIssue) :=
    if s.service_health ≠ ComponentDegradationLevel.NONE then
      match s.service_health.view with
      | some v => Except.ok (issuesDb ++ [⟨"service", v, s.service_health_state_str⟩])
      | none => Except.error "AttributeError: ComponentDegradationLevel has no attribute view"
    else Except.ok issuesDb
  match issuesE with
  | Except.error e => Except.error e
  | Except.ok issues =>
    let status : String :=
      if issues ≠ [] then
        if issues.any (fun i =>
            i.status = ComponentDegradationLevel.FULLY_DEGRADED.value) then
          ServiceDegradationStatus.CRITICAL.value
        else
          ServiceDegradationStatus.DEGRADED.value
      else
        ServiceDegradationStatus.HEALTHY.value
    Except.ok
      { status := status
        dependencies_database := s.database_health.value
        dependencies_service := s.service_health.value
        issues := if issues ≠ [] then some issues else none
        uptime_seconds := uptime
        version := s.version
        http_status := 200 }

end HealthApiView

/-! ## `weavefeed_common/base_microservice_application.py` -/

/-- The observable state of a `BaseMicroserviceApplication`: the two
`asyncio.Event`s as booleans, plus the subclass-owned application state
of type `σ` that the subclass teardown hook `_shutdown` acts on. -/
structure MicroserviceState (σ : Type) where
  is_initialised : Bool := false
  shutdown_event : Bool := false
  shutdown_complete : Bool := false
  app : σ
deriving DecidableEq, Repr

namespace BaseMicroserviceApplication

/-- `BaseMicroserviceApplication.stop`, lines 115-129: sets the shutdown
event, awaits the subclass teardown `self._shutdown()` (here the abstract
`teardown` function on the subclass state), then sets shutdown-complete.
There is no guard against repeated calls. -/
def stop {σ : Type} (teardown : σ → σ) (s : MicroserviceState σ) :
    MicroserviceState σ :=
  let s1 := { s with shutdown_event := true }
  let s2 := { s1 with app := teardown s1.app }
  { s2 with shutdown_complete := true }

end BaseMicroserviceApplication

/-! ## `services/accounts/__init__.py`: resilient pool bootstrap

`create_db_pool` calls `asyncpg.create_pool` up to `retries` times.  The
outcome of each attempt (an external collaborator) is an oracle
`outcome : Nat → ConnectOutcome`; `random.uniform(0, 0.3 * delay)` is an
oracle `jitter : Nat → Rat`, both indexed by the 1-based attempt number.
Delays are rationals (seconds). -/

/-- Result of one `asyncpg.create_pool` call, by exception class. -/
inductive ConnectOutcome where
  | success
  | invalidPasswordError
  | invalidCatalogNameError
  | cannotConnectNowError
  | timeoutError
  | osError (msg : String)
  | postgresError (msg : String)
deriving DecidableEq, Repr

/-- Outcomes that fall through to the backoff-and-retry block (every
handler except `InvalidPasswordError` / `InvalidCatalogNameError`, which
`break` immediately, and success, which returns). -/
def ConnectOutcome.retryable : ConnectOutcome → Bool
  | .success => false
  | .invalidPasswordError => false
  | .invalidCatalogNameError => false
  | .cannotConnectNowError => true
  | .timeoutError => true
  | .osError _ => true
  | .postgresError _ => true

/-- What the `for attempt in range(1, retries + 1)` loop of
`create_db_pool` did: how many attempts ran, the `asyncio.sleep`
durations in order, and the successful attempt number (if any). -/
structure PoolRun where
  attemptsMade : Nat
  waits : List Rat
  success : Option Nat
deriving DecidableEq, Repr

/-- The attempt loop of `create_db_pool`, lines 194-250.  `attempt` is the
current 1-based attempt number; `fuel` is the number of loop iterations
left (`retries - attempt + 1` at every call).  On a retryable failure the
code computes `delay = base_delay * 2 ** (attempt - 1)` and
`wait_time = delay + jitter`, sleeps only when `attempt < retries`, and
otherwise breaks with no wait after the final attempt. -/
def create_db_pool_loop (outcome : Nat → ConnectOutcome) (jitter : Nat → Rat)
    (retries : Nat) (base_delay : Rat) : Nat → Nat → PoolRun
  | _, 0 => ⟨0, [], none⟩
  | attempt, fuel + 1 =>
    match outcome attempt with
    | .success => ⟨1, [], some attempt⟩
    | .invalidPasswordError => ⟨1, [], none⟩
    | .invalidCatalogNameError => ⟨1, [], none⟩
    | _ =>
      let delay := base_delay * 2 ^ (attempt - 1)
      let wait_time := delay + jitter attempt
      if attempt < retries then
        let rest := create_db_pool_loop outcome jitter retries base_delay (attempt + 1) fuel
        ⟨rest.attemptsMade + 1, wait_time :: rest.waits, rest.success⟩
      else
        ⟨1, [], none⟩

/-- `cancel_background_tasks`, lines 56-78: cancels and awaits
`app.background_task` when it exists.  Returns the number of
cancel-and-await operations performed. -/
def cancel_background_tasks (task_present : Bool) : Nat :=
  if task_present then 1 else 0

/-- Overall result of `create_db_pool`: the loop run, how many background
tasks were cancelled afterwards, and whether `os._exit(1)` was reached. -/
structure PoolBootstrapResult where
  run : PoolRun
  background_cancels : Nat
  fatal_exit : Bool
deriving DecidableEq, Repr

/-- `create_db_pool`, lines 167-256: run the attempt loop starting at
attempt 1; on success return the pool, otherwise cancel background tasks
(`app` is never `None` at module level) and call `os._exit(1)`. -/
def create_db_pool (outcome : Nat → ConnectOutcome) (jitter : Nat → Rat)
    (task_present : Bool) (retries : Nat) (base_delay : Rat) :
    PoolBootstrapResult :=
  let run := create_db_pool_loop outcome jitter retries base_delay 1 retries
  match run.success with
  | some _ => ⟨run, 0, false⟩
  | none => ⟨run, cancel_background_tasks task_present, true⟩

/-! ## `data_access_layer/user_data_access_layer.py` and
`data_services/user_data_service.py`

The database (asyncpg connection) is an external collaborator: each
query's outcome is a `DbOutcome` oracle argument, and the set of stored
user rows is a `List UserRecord`.  `asyncpg.PostgresConnectionError` is a
subclass of `asyncpg.PostgresError` (SQLSTATE class 08), so a handler for
`PostgresError` also catches connection errors. -/

/-- One row of the `users` table, as selected by the layer's queries. -/
structure UserRecord where
  id : String
  username : String
  email : String
  password_hash : Option String
  is_active : Bool
  is_verified : Bool
deriving DecidableEq, Repr

/-- Outcome of one database call: success, or the exception it raised. -/
inductive DbOutcome where
  | ok
  | connectionError (msg : String)
  | postgresError (msg : String)
  | otherError (msg : String)
deriving DecidableEq, Repr

namespace UserDataAccessLayer

/-- `UserDataAccessLayer.check_user_exists`, lines 22-57: fetch a row
matching the username or email; on `asyncpg.PostgresError` set database
health FULLY_DEGRADED and return `None`; on any other exception set
PART_DEGRADED and return `None`.  Returns the matching row's id (the
`SELECT id` result) and the updated state. -/
def check_user_exists (outcome : DbOutcome) (store : List UserRecord)
    (username email : String) (s : StateObject) :
    Option String × StateObject :=
  match outcome with
  | .ok =>
    ((store.find? (fun u => u.username = username ∨ u.email = email)).map
      (fun u => u.id), s)
  | .connectionError msg | .postgresError msg =>
    (none,
      { s with
        database_health := .FULLY_DEGRADED
        database_health_state_str :=
          "Database error while checking user existence: " ++ msg })
  | .otherError msg =>
    (none,
      { s with
        database_health := .PART_DEGRADED
        database_health_state_str :=
          "Unexpected error checking user existence: " ++ msg })

/-- `UserDataAccessLayer.create_user`, lines 59-115.  `user_id` stands for
the freshly generated `uuid.uuid4()`.  Inside the transaction the method
first resets database health to NONE (guarded by the current level not
being FULLY_DEGRADED), re-checks for duplicates (whose own exceptions are
caught inside `check_user_exists`), then inserts; `check_outcome` and
`insert_outcome` are the two queries' oracles.  Returns the created id
(or `None`), the resulting store and the resulting state. -/
def create_user (check_outcome insert_outcome : DbOutcome)
    (store : List UserRecord) (user_id username email password_hash : String)
    (verified : Bool) (s : StateObject) :
    Option String × List UserRecord × StateObject :=
  let s1 :=
    if s.database_health ≠ ComponentDegradationLevel.FULLY_DEGRADED then
      { s with
        database_health := .NONE
        database_health_state_str := "Database operational" }
    else s
  let checked := check_user_exists check_outcome store username email s1
  match checked.1 with
  | some _ => (none, store, checked.2)
  | none =>
    match insert_outcome with
    | .ok =>
      (some user_id,
        store ++ [⟨user_id, username, email, some password_hash, true, verified⟩],
        checked.2)
    | .connectionError _ =>
      (none, store,
        { checked.2 with
          database_health := .FULLY_DEGRADED
          database_health_state_str := "Database unreachable" })
    | .postgresError _ =>
      (none, store,
        { checked.2 with
          database_health := .FULLY_DEGRADED
          database_health_state_str := "Database operation failed" })
    | .otherError _ =>
      (none, store,
        { checked.2 with
          service_health := .FULLY_DEGRADED
          service_health_state_str := "Service experienced unexpected failure" })

/-- `UserDataAccessLayer.get_by_email_or_username`, lines 117-181: fetch a
row whose username or email equals the identifier; on a hit or a miss
reset database health to NONE guarded by the current level not being
FULLY_DEGRADED; connection errors set FULLY_DEGRADED, other Postgres
errors PART_DEGRADED, anything else degrades the service component. -/
def get_by_email_or_username (outcome : DbOutcome) (store : List UserRecord)
    (identifier : String) (s : StateObject) :
    Option UserRecord × StateObject :=
  match outcome with
  | .ok =>
    match store.find? (fun u => u.username = identifier ∨ u.email = identifier) with
    | some user =>
      (some user,
        if s.database_health ≠ ComponentDegradationLevel.FULLY_DEGRADED then
          { s with
            database_health := .NONE
            database_health_state_str := "Database operational" }
        else s)
    | none =>
      (none,
        if s.database_health ≠ ComponentDegradationLevel.FULLY_DEGRADED then
          { s with
            database_health := .NONE
            database_health_state_str := "Database operational (no match)" }
        else s)
  | .connectionError _ =>
    (none,
      { s with
        database_health := .FULLY_DEGRADED
        database_health_state_str := "Database unreachable" })
  | .postgresError _ =>
    (none,
      { s with
        database_health := .PART_DEGRADED
        database_health_state_str := "Database operation failed" })
  | .otherError _ =>
    (none,
      { s with
        service_health := .FULLY_DEGRADED
        service_health_state_str := "Service experienced unexpected failure" })

end UserDataAccessLayer

namespace UserDataService

/-- The positional/keyword parameters accepted by
`UserDataAccessLayer.create_user` (besides `self`). -/
def create_user_params : List String :=
  ["username", "email", "password_hash", "verified"]

/-- The keyword arguments supplied at the `self._user_dal.create_user(...)`
call site in `UserDataService.signup_with_password`, lines 33-39. -/
def signup_create_user_call_kwargs : List String :=
  ["username", "email", "password_hash", "verified", "state_object"]

/-- Whether the call binds: Python raises
`TypeError: create_user() got an unexpected keyword argument` when a
supplied keyword is not a parameter of the callee. -/
def signup_create_user_call_binds : Bool :=
  signup_create_user_call_kwargs.all (fun k => create_user_params.contains k)

/-- The JSON dict returned by the `UserDataService` use cases (minus the
`status` key, which is the HTTP status code). -/
structure ServiceResponse where
  error : Option String := none
  message : Option String := none
  user_id : Option String := none
  username : Option String := none
  email : Option String := none
  is_verified : Option Bool := none
  status : Nat := 200
deriving DecidableEq, Repr

/-- `UserDataService.signup_with_password`, lines 18-53: check duplicates
via the data-access layer, hash the password (`bcrypt.hash` is the
external `hash` argument), then call `create_user`.  The call site
supplies the keyword argument `state_object`, which
`UserDataAccessLayer.create_user` does not accept, so when the duplicate
check finds nothing the call raises `TypeError` (modelled by the
`signup_create_user_call_binds` guard).  `fresh_uuid` stands for the
`uuid.uuid4()` that `create_user` would generate. -/
def signup_with_password (check_outcome check2_outcome insert_outcome : DbOutcome)
    (store : List UserRecord) (fresh_uuid : String) (hash : String → String)
    (username email password : String) (s : StateObject) :
    Except String (ServiceResponse × List UserRecord × StateObject) :=
  let checked := UserDataAccessLayer.check_user_exists check_outcome store username email s
  match checked.1 with
  | some _ =>
    Except.ok ({ error := some "User already exists", status := 409 }, store, checked.2)
  | none =>
    let password_hash := hash password
    if signup_create_user_call_binds then
      match UserDataAccessLayer.create_user check2_outcome insert_outcome store
          fresh_uuid username email password_hash false checked.2 with
      | (none, store2, s2) =>
        Except.ok ({ error := some "Failed to create user", status := 500 }, store2, s2)
      | (some uid, store2, s2) =>
        Except.ok
          ({ message := some "User created successfully", user_id := some uid,
             username := some username, email := some email, status := 201 },
            store2, s2)
    else
      Except.error "TypeError: create_user() got an unexpected keyword argument state_object"

end UserDataService

/-! ## `weavefeed_common/configuration/configuration_setup.py` -/

/-- `ConfigItemDataType` enum. -/
inductive ConfigItemDataType where
  | INT
  | STRING
  | BOOLEAN
  | FLOAT
  | UNSIGNED_INT
deriving DecidableEq, Repr

/-- A Python value as it flows through the configuration resolver:
environment variables yield `str`, the configparser typed getters yield
parsed values, schema defaults may be any of these.  Python floats are
modelled as rationals. -/
inductive PyValue where
  | str (s : String)
  | int (n : Int)
  | bool (b : Bool)
  | float (q : Rat)
deriving DecidableEq, Repr

/-- `ConfigurationSetupItem` dataclass. -/
structure ConfigurationSetupItem where
  item_name : String
  item_type : ConfigItemDataType
  valid_values : Option (List String) := none
  is_required : Bool := false
  default_value : Option PyValue := none
deriving DecidableEq, Repr

/-! ## Python builtin coercions used by the resolver (external builtins)

`int(...)`, `float(...)`, `str(...)` are Python builtins; the models
below cover the value shapes the resolver can feed them (decimal string
parsing without exponent forms or underscore separators). -/

/-- Python `str.lower` on one character (ASCII). -/
def py_char_lower (c : Char) : Char :=
  if 'A' ≤ c ∧ c ≤ 'Z' then Char.ofNat (c.toNat + 32) else c

/-- Python `str.upper` on one character (ASCII). -/
def py_char_upper (c : Char) : Char :=
  if 'a' ≤ c ∧ c ≤ 'z' then Char.ofNat (c.toNat - 32) else c

/-- Python `str.lower()`. -/
def py_lower (s : String) : String :=
  ⟨s.data.map py_char_lower⟩

/-- Python `str.upper()`. -/
def py_upper (s : String) : String :=
  ⟨s.data.map py_char_upper⟩

/-- The whitespace characters `str.strip()` removes. -/
def py_is_space (c : Char) : Bool :=
  c = ' ' ∨ c = '\t' ∨ c = '\n' ∨ c = '\r' ∨ c = '\x0b' ∨ c = '\x0c'

/-- Python `str.strip()`: drop leading and trailing whitespace. -/
def py_strip (s : String) : String :=
  ⟨((s.data.dropWhile py_is_space).reverse.dropWhile py_is_space).reverse⟩

/-- Numeric value of a list of decimal digit characters. -/
def digits_val (ds : List Char) : Int :=
  ds.foldl (fun a c => a * 10 + ((c.toNat : Int) - 48)) 0

/-- Python `int(s)` on a string: strip whitespace, optional sign, decimal
digits; anything else raises `ValueError` (`none`). -/
def py_parse_int (s : String) : Option Int :=
  match (py_strip s).data with
  | [] => none
  | '+' :: ds =>
    if ds ≠ [] ∧ ds.all Char.isDigit then some (digits_val ds) else none
  | '-' :: ds =>
    if ds ≠ [] ∧ ds.all Char.isDigit then some (-(digits_val ds)) else none
  | ds =>
    if ds.all Char.isDigit then some (digits_val ds) else none

/-- Digits with an optional single decimal point, as a rational. -/
def parse_unsigned_decimal (ds : List Char) : Option Rat :=
  match ds.splitOn '.' with
  | [ip] =>
    if ip ≠ [] ∧ ip.all Char.isDigit then some ((digits_val ip : Int) : Rat) else none
  | [ip, fp] =>
    if (ip ≠ [] ∨ fp ≠ []) ∧ ip.all Char.isDigit ∧ fp.all Char.isDigit then
      some (((digits_val ip : Int) : Rat) +
        ((digits_val fp : Int) : Rat) / ((10 : Rat) ^ fp.length))
    else none
  | _ => none

/-- Python `float(s)` on a string (decimal forms; exponent and special
forms are not exercised by the repository). -/
def py_parse_float (s : String) : Option Rat :=
  match (py_strip s).data with
  | '+' :: ds => parse_unsigned_decimal ds
  | '-' :: ds => (parse_unsigned_decimal ds).map (fun q => -q)
  | ds => parse_unsigned_decimal ds

/-- Python `str(value)`. -/
def py_str : PyValue → String
  | .str s => s
  | .int n => toString n
  | .bool b => if b then "True" else "False"
  | .float q => toString q

/-- Python `int(value)`: ints pass through, bools are 0/1, floats
truncate toward zero, strings parse; failure raises
`ValueError`/`TypeError` (`none`). -/
def py_int_of : PyValue → Option Int
  | .int n => some n
  | .bool b => some (if b then 1 else 0)
  | .float q => some (q.num / (q.den : Int))
  | .str s => py_parse_int s

/-- Python `float(value)`. -/
def py_float_of : PyValue → Option Rat
  | .float q => some q
  | .int n => some ((n : Rat))
  | .bool b => some (if b then 1 else 0)
  | .str s => py_parse_float s

/-! ## `weavefeed_common/configuration/configuration.py` -/

namespace Configuration

/-- The process environment (`os.getenv`). -/
def env_get (env : List (String × String)) (name : String) : Option String :=
  (env.find? (fun p => p.1 = name)).map (fun p => p.2)

/-- `f"{section}_{item.item_name}".upper()`. -/
def env_var_name (sect item_name : String) : String :=
  py_upper (sect ++ "_" ++ item_name)

/-- The external `configparser.ConfigParser` after `parser.read(...)`:
the four typed getters the resolver passes to `_lookup_value`.
`Except.ok none` models a `NoSectionError`/`NoOptionError` (caught by
`_lookup_value`); `Except.error` models any other exception a getter
raises (for example `ValueError` from `getint`), which propagates. -/
structure FileParser where
  get : String → String → Except String (Option PyValue)
  getint : String → String → Except String (Option PyValue)
  getboolean : String → String → Except String (Option PyValue)
  getfloat : String → String → Except String (Option PyValue)

/-- A parser with no file behind it: every lookup misses. -/
def empty_file_getters : FileParser :=
  ⟨fun _ _ => Except.ok none, fun _ _ => Except.ok none,
   fun _ _ => Except.ok none, fun _ _ => Except.ok none⟩

/-- `Configuration._lookup_value`, lines 106-124: the environment variable
`UPPERCASE(section)_UPPERCASE(item)` wins; else the file getter (misses
caught); else the schema default. -/
def lookup_value (env : List (String × String)) (has_config_file : Bool)
    (file_getter : String → String → Except String (Option PyValue))
    (sect : String) (item : ConfigurationSetupItem) :
    Except String (Option PyValue) :=
  match (env_get env (env_var_name sect item.item_name)).map PyValue.str with
  | some v => Except.ok (some v)
  | none =>
    match (if has_config_file then file_getter sect item.item_name
           else Except.ok none) with
    | Except.error e => Except.error e
    | Except.ok (some v) => Except.ok (some v)
    | Except.ok none => Except.ok item.default_value

/-- The `[ConfigError] Missing required 'section::item'` message. -/
def config_missing_msg (sect item_name : String) : String :=
  "[ConfigError] Missing required '" ++ sect ++ "::" ++ item_name ++ "'"

/-- `Configuration._ensure_required`, lines 126-133. -/
def ensure_required (sect : String) (item : ConfigurationSetupItem)
    (value : Option PyValue) : Except String (Option PyValue) :=
  if value = none ∧ item.is_required then
    Except.error (config_missing_msg sect item.item_name)
  else
    Except.ok value

/-- `'section::item' has invalid value ...` message of `_read_str`. -/
def invalid_value_msg (sect item_name raw : String) (vv : List String) : String :=
  "[ConfigError] '" ++ sect ++ "::" ++ item_name ++ "' has invalid value '"
    ++ raw ++ "', expected one of " ++ toString vv

/-- `'section::item' has invalid int ...` message of `_read_int`. -/
def invalid_int_msg (sect item_name raw : String) : String :=
  "[ConfigError] '" ++ sect ++ "::" ++ item_name ++ "' has invalid int '"
    ++ raw ++ "'"

/-- `'section::item' has invalid boolean ...` message of `_read_bool`. -/
def invalid_bool_msg (sect item_name raw : String) : String :=
  "[ConfigError] '" ++ sect ++ "::" ++ item_name ++ "' has invalid boolean '"
    ++ raw ++ "'"

/-- `'section::item' has invalid float ...` message of `_read_float`. -/
def invalid_float_msg (sect item_name raw : String) : String :=
  "[ConfigError] '" ++ sect ++ "::" ++ item_name ++ "' has invalid float '"
    ++ raw ++ "'"

/-- `'section::item' has invalid unsigned int ...` message of `_read_uint`. -/
def invalid_uint_msg (sect item_name raw : String) : String :=
  "[ConfigError] '" ++ sect ++ "::" ++ item_name
    ++ "' has invalid unsigned int '" ++ raw ++ "'"

/-- Python `value in list` for a candidate against `valid_values` (a list
of strings): `==` only holds for equal strings. -/
def py_value_in_str_list : PyValue → List String → Bool
  | .str s, vv => vv.contains s
  | _, _ => false

/-- `Configuration._read_str`, lines 139-153.  `if item.valid_values`
is Python truthiness: `None` and the empty list skip the check. -/
def read_str (env : List (String × String)) (has_config_file : Bool)
    (fp : FileParser) (sect : String) (item : ConfigurationSetupItem) :
    Except String (Option PyValue) :=
  match lookup_value env has_config_file fp.get sect item with
  | Except.error e => Except.error e
  | Except.ok value =>
    match ensure_required sect item value with
    | Except.error e => Except.error e
    | Except.ok none => Except.ok none
    | Except.ok (some v) =>
      match item.valid_values with
      | some (v0 :: vs) =>
        if ¬ py_value_in_str_list v (v0 :: vs) then
          Except.error (invalid_value_msg sect item.item_name (py_str v) (v0 :: vs))
        else
          Except.ok (some (PyValue.str (py_str v)))
      | _ => Except.ok (some (PyValue.str (py_str v)))

/-- `Configuration._read_int`, lines 155-170. -/
def read_int (env : List (String × String)) (has_config_file : Bool)
    (fp : FileParser) (sect : String) (item : ConfigurationSetupItem) :
    Except String (Option PyValue) :=
  match lookup_value env has_config_file fp.getint sect item with
  | Except.error e => Except.error e
  | Except.ok value =>
    match ensure_required sect item value with
    | Except.error e => Except.error e
    | Except.ok none => Except.ok none
    | Except.ok (some v) =>
      match py_int_of v with
      | some n => Except.ok (some (PyValue.int n))
      | none => Except.error (invalid_int_msg sect item.item_name (py_str v))

/-- The strings `_read_bool` accepts as true. -/
def true_strings : List String := ["true", "1", "yes", "on"]

/-- The strings `_read_bool` accepts as false. -/
def false_strings : List String := ["false", "0", "no", "off"]

/-- `Configuration._read_bool`, lines 172-194: `bool` values pass
through; strings are stripped, lowercased and matched against the two
sets; everything else raises. -/
def read_bool (env : List (String × String)) (has_config_file : Bool)
    (fp : FileParser) (sect : String) (item : ConfigurationSetupItem) :
    Except String (Option PyValue) :=
  match lookup_value env has_config_file fp.getboolean sect item with
  | Except.error e => Except.error e
  | Except.ok value =>
    match ensure_required sect item value with
    | Except.error e => Except.error e
    | Except.ok none => Except.ok none
    | Except.ok (some v) =>
      match v with
      | .bool b => Except.ok (some (PyValue.bool b))
      | .str s =>
        let lowered := py_lower (py_strip s)
        if true_strings.contains lowered then
          Except.ok (some (PyValue.bool true))
        else if false_strings.contains lowered then
          Except.ok (some (PyValue.bool false))
        else
          Except.error (invalid_bool_msg sect item.item_name s)
      | _ => Except.error (invalid_bool_msg sect item.item_name (py_str v))

/-- `Configuration._read_float`, lines 196-211. -/
def read_float (env : List (String × String)) (has_config_file : Bool)
    (fp : FileParser) (sect : String) (item : ConfigurationSetupItem) :
    Except String (Option PyValue) :=
  match lookup_value env has_config_file fp.getfloat sect item with
  | Except.error e => Except.error e
  | Except.ok value =>
    match ensure_required sect item value with
    | Except.error e => Except.error e
    | Except.ok none => Except.ok none
    | Except.ok (some v) =>
      match py_float_of v with
      | some q => Except.ok (some (PyValue.float q))
      | none => Except.error (invalid_float_msg sect item.item_name (py_str v))

/-- `Configuration._read_uint`, lines 213-224: `_read_int`, then reject
negatives.  (`_read_int` only ever produces `PyValue.int`; other shapes
in its `some` result cannot occur and pass through unchanged.) -/
def read_uint (env : List (String × String)) (has_config_file : Bool)
    (fp : FileParser) (sect : String) (item : ConfigurationSetupItem) :
    Except String (Option PyValue) :=
  match read_int env has_config_file fp sect item with
  | Except.error e => Except.error e
  | Except.ok none => Except.ok none
  | Except.ok (some v) =>
    match v with
    | .int n =>
      if n < 0 then
        Except.error (invalid_uint_msg sect item.item_name (toString n))
      else
        Except.ok (some (PyValue.int n))
    | _ => Except.ok (some v)

/-- The `self._readers` dispatch map of the constructor, applied to one
item as `_read_configuration` does (every `ConfigItemDataType` has a
reader, so the unsupported-type error is unreachable). -/
def read_item (env : List (String × String)) (has_config_file : Bool)
    (fp : FileParser) (sect : String) (item : ConfigurationSetupItem) :
    Except String (Option PyValue) :=
  match item.item_type with
  | .INT => read_int env has_config_file fp sect item
  | .STRING => read_str env has_config_file fp sect item
  | .BOOLEAN => read_bool env has_config_file fp sect item
  | .FLOAT => read_float env has_config_file fp sect item
  | .UNSIGNED_INT => read_uint env has_config_file fp sect item

/-- `self._config_items`, the two-level dict, as a lookup function
(deleted sections never occur; a stored value may itself be `None` for a
non-required absent item). -/
def ConfigItems : Type := String → String → Option (Option PyValue)

/-- The empty `self._config_items`. -/
def empty_config_items : ConfigItems := fun _ _ => none

/-- `self._config_items[section][item] = value`. -/
def store_entry (m : ConfigItems) (sect item_name : String)
    (v : Option PyValue) : ConfigItems :=
  fun s' i' => if s' = sect ∧ i' = item_name then some v else m s' i'

/-- The inner loop of `_read_configuration`, lines 234-247: resolve each
item of a section in order, storing into the dict; the first error
aborts. -/
def read_section_items (env : List (String × String)) (has_config_file : Bool)
    (fp : FileParser) (sect : String) :
    ConfigItems → List ConfigurationSetupItem → Except String ConfigItems
  | m, [] => Except.ok m
  | m, item :: rest =>
    match read_item env has_config_file fp sect item with
    | Except.error e => Except.error e
    | Except.ok v =>
      read_section_items env has_config_file fp sect
        (store_entry m sect item.item_name v) rest

/-- The outer loop of `_read_configuration`, lines 230-247, over the
layout's sections (`ConfigurationSetup` is a dict from section name to
item list). -/
def read_configuration (env : List (String × String)) (has_config_file : Bool)
    (fp : FileParser) :
    ConfigItems → List (String × List ConfigurationSetupItem) → Except String ConfigItems
  | m, [] => Except.ok m
  | m, (sect, items) :: rest =>
    match read_section_items env has_config_file fp sect m items with
    | Except.error e => Except.error e
    | Except.ok m' => read_configuration env has_config_file fp m' rest

/-- `Configuration.process_config`, lines 55-80, after the external
`parser.read` step: `has_config_file = bool(files_read)` and `fp` is the
parser's state; the per-item resolution is `_read_configuration`. -/
def process_config (env : List (String × String)) (has_config_file : Bool)
    (fp : FileParser) (layout : List (String × List ConfigurationSetupItem)) :
    Except String ConfigItems :=
  read_configuration env has_config_file fp empty_config_items layout

/-- `Configuration.get_entry`, lines 82-100: dict lookup, `KeyError`
becomes `[ConfigError] Invalid key`. -/
def get_entry (m : ConfigItems) (sect item_name : String) :
    Except String (Option PyValue) :=
  match m sect item_name with
  | some v => Except.ok v
  | none =>
    Except.error ("[ConfigError] Invalid key '" ++ sect ++ "::" ++ item_name ++ "'")

/-- "case-insensitively equals": equality after lowercasing both sides. -/
def case_insensitive_eq (a b : String) : Bool :=
  py_lower a = py_lower b

end Configuration

/-! ## Theorems -/

/-- C1: the claim asserts that `HealthApiView.health` returns an HTTP 200
response for every combination of component levels, with status CRITICAL
iff some level is FULLY_DEGRADED, else DEGRADED iff some level is
non-NONE, else HEALTHY.  On the code this fails: whenever
`service_health ≠ NONE` the handler evaluates `service_health.view`
(line 73), which raises `AttributeError`, so no 200 response is produced
(first conjunct).  The database-only combinations do behave as claimed
(second conjunct). -/
theorem health_service_view_attribute_error :
    HealthApiView.health
      { service_health := .PART_DEGRADED
        service_health_state_str := "Service degraded"
        database_health := .NONE
        database_health_state_str := ""
        version := "1.0.0"
        startup_time := 0 } 100
      = Except.error "AttributeError: ComponentDegradationLevel has no attribute view"
    ∧ HealthApiView.health
      { service_health := .NONE
        service_health_state_str := ""
        database_health := .FULLY_DEGRADED
        database_health_state_str := "down"
        version := "1.0.0"
        startup_time := 0 } 100
      = Except.ok
        { status := "critical"
          dependencies_database := "fully_degraded"
          dependencies_service := "none"
          issues := some [⟨"database", "fully_degraded", "down"⟩]
          uptime_seconds := 100
          version := "1.0.0"
          http_status := 200 } :=
  ⟨rfl, rfl⟩

/-- C2: the claim asserts that a signup for a fresh username/email returns
201 with a generated user id.  On the code the success path is
unreachable: `signup_with_password` passes the keyword argument
`state_object` to `UserDataAccessLayer.create_user`, whose signature does
not accept it, so the call raises `TypeError` (first conjunct).  The
duplicate branch behaves as claimed: a signup whose username or email is
already stored returns 409 `User already exists` (second conjunct). -/
theorem signup_with_password_type_error :
    UserDataService.signup_with_password .ok .ok .ok [] "7a6f1c2e"
      (fun p => "bcrypt$" ++ p) "alice" "a@example.com" "pw123" StateObject.initial
      = Except.error "TypeError: create_user() got an unexpected keyword argument state_object"
    ∧ UserDataService.signup_with_password .ok .ok .ok
        [⟨"7a6f1c2e", "alice", "a@example.com", some "h", true, false⟩]
        "9b8d2f41" (fun p => "bcrypt$" ++ p) "alice" "a@example.com" "pw123"
        StateObject.initial
      = Except.ok ({ error := some "User already exists", status := 409 },
          [⟨"7a6f1c2e", "alice", "a@example.com", some "h", true, false⟩],
          StateObject.initial) :=
  ⟨rfl, rfl⟩

/-- C3 counterexample: the claim says a second `stop()` call is a no-op
beyond re-setting signals and in particular does not invoke the teardown
again.  Concretely, with teardown `Nat.succ` on a counter starting at 0,
the first call leaves the counter at 1 and a second call raises it to 2:
the teardown ran a second time. -/
theorem stop_not_idempotent_counterexample :
    (BaseMicroserviceApplication.stop Nat.succ
      (BaseMicroserviceApplication.stop Nat.succ
        { is_initialised := true, app := 0 })).app = 2
    ∧ (BaseMicroserviceApplication.stop Nat.succ
        { is_initialised := true, app := 0 }).app = 1 :=
  ⟨rfl, rfl⟩

/-- C3 (amended): every call to `stop()` sets the shutdown signal,
invokes the subclass teardown, then marks shutdown-complete; a second
call re-sets the already-set signals and changes nothing else, except
that it does invoke the teardown a second time. -/
theorem stop_second_call_runs_teardown {σ : Type} (teardown : σ → σ)
    (s : MicroserviceState σ) :
    (BaseMicroserviceApplication.stop teardown s).shutdown_event = true
    ∧ (BaseMicroserviceApplication.stop teardown s).shutdown_complete = true
    ∧ (BaseMicroserviceApplication.stop teardown s).app = teardown s.app
    ∧ BaseMicroserviceApplication.stop teardown
        (BaseMicroserviceApplication.stop teardown s)
      = { s with
          shutdown_event := true
          shutdown_complete := true
          app := teardown (teardown s.app) } :=
  ⟨rfl, rfl, rfl, rfl⟩

/-- Unfolding one retryable iteration of the `create_db_pool` attempt
loop: any outcome that is neither success nor one of the two
non-retryable errors falls through to the backoff block. -/
theorem create_db_pool_loop_retryable_step (outcome : Nat → ConnectOutcome)
    (jitter : Nat → Rat) (retries : Nat) (base_delay : Rat)
    (attempt fuel : Nat) (h : (outcome attempt).retryable = true) :
    create_db_pool_loop outcome jitter retries base_delay attempt (fuel + 1)
      = (if attempt < retries then
          ⟨(create_db_pool_loop outcome jitter retries base_delay (attempt + 1) fuel).attemptsMade + 1,
            (base_delay * 2 ^ (attempt - 1) + jitter attempt)
              :: (create_db_pool_loop outcome jitter retries base_delay (attempt + 1) fuel).waits,
            (create_db_pool_loop outcome jitter retries base_delay (attempt + 1) fuel).success⟩
        else ⟨1, [], none⟩) := by
  cases ho : outcome attempt <;>
    simp [ConnectOutcome.retryable, ho] at h ⊢ <;>
    simp [create_db_pool_loop, ho]

/-- C7: for `create_db_pool` with `retries = 3`, `base_delay = 1` under a
permanently retryable connection error, exactly 2 waits occur (before the
2nd and 3rd attempts, none after the final attempt), and the wait before
attempt `k+1` is at least `base_delay * 2^(k-1)` and strictly below
`1.3 * base_delay * 2^(k-1)` (jitter is uniform on `[0, 0.3 * delay)`
since `random.random()` ranges over `[0, 1)`). -/
theorem create_db_pool_backoff_bounds (outcome : Nat → ConnectOutcome)
    (jitter : Nat → Rat) (tp : Bool)
    (hretry : ∀ k, (outcome k).retryable = true)
    (hjit : ∀ k, 0 ≤ jitter k ∧ jitter k < (3 / 10 : Rat) * ((1 : Rat) * 2 ^ (k - 1))) :
    ∃ w1 w2 : Rat,
      (create_db_pool outcome jitter tp 3 1).run.waits = [w1, w2]
      ∧ 1 ≤ w1 ∧ w1 < 13 / 10
      ∧ 2 ≤ w2 ∧ w2 < 13 / 5
      ∧ (create_db_pool outcome jitter tp 3 1).run.attemptsMade = 3
      ∧ (create_db_pool outcome jitter tp 3 1).run.success = none := by
  have hloop : create_db_pool_loop outcome jitter 3 1 1 3
      = ⟨3, [1 * 2 ^ 0 + jitter 1, 1 * 2 ^ 1 + jitter 2], none⟩ := by
    rw [show (3 : Nat) = 2 + 1 from rfl,
      create_db_pool_loop_retryable_step outcome jitter 3 1 1 2 (hretry 1)]
    rw [show (2 : Nat) = 1 + 1 from rfl,
      create_db_pool_loop_retryable_step outcome jitter 3 1 2 1 (hretry 2)]
    rw [show (1 : Nat) = 0 + 1 from rfl,
      create_db_pool_loop_retryable_step outcome jitter 3 1 3 0 (hretry 3)]
    norm_num
  refine ⟨1 * 2 ^ 0 + jitter 1, 1 * 2 ^ 1 + jitter 2, ?_⟩
  have h1 := hjit 1
  have h2 := hjit 2
  simp only [pow_zero, pow_one, mul_one, one_mul] at h1 h2 ⊢
  have hrun : (create_db_pool outcome jitter tp 3 1).run
      = ⟨3, [1 + jitter 1, 2 + jitter 2], none⟩ := by
    simp [create_db_pool, hloop]
  rw [hrun]
  refine ⟨rfl, by linarith [h1.1], by linarith [h1.2], by linarith [h2.1],
    by linarith [h2.2], rfl, rfl⟩

/-- C7 witness: a permanently `CannotConnectNowError` oracle with zero
jitter satisfies the hypotheses, and the theorem applies. -/
theorem create_db_pool_backoff_bounds_witness :
    (∀ k, ((fun _ : Nat => ConnectOutcome.cannotConnectNowError) k).retryable = true)
    ∧ ∃ w1 w2 : Rat,
      (create_db_pool (fun _ : Nat => ConnectOutcome.cannotConnectNowError)
        (fun _ : Nat => (0 : Rat)) true 3 1).run.waits = [w1, w2]
      ∧ 1 ≤ w1 ∧ w1 < 13 / 10
      ∧ 2 ≤ w2 ∧ w2 < 13 / 5
      ∧ (create_db_pool (fun _ : Nat => ConnectOutcome.cannotConnectNowError)
          (fun _ : Nat => (0 : Rat)) true 3 1).run.attemptsMade = 3
      ∧ (create_db_pool (fun _ : Nat => ConnectOutcome.cannotConnectNowError)
          (fun _ : Nat => (0 : Rat)) true 3 1).run.success = none :=
  ⟨fun _ => rfl,
    create_db_pool_backoff_bounds (fun _ : Nat => ConnectOutcome.cannotConnectNowError)
      (fun _ => 0) true (fun _ => rfl)
      (fun k => ⟨le_rfl, by positivity⟩)⟩

/-- C8: an authentication failure (or nonexistent target database) on the
very first attempt produces zero backoff waits and no further attempts;
the dependent background task is cancelled exactly once (and awaited)
before `os._exit(1)` is reached. -/
theorem create_db_pool_auth_failure_no_retry (outcome : Nat → ConnectOutcome)
    (jitter : Nat → Rat) (retries : Nat) (base_delay : Rat)
    (hretries : 1 ≤ retries)
    (h1 : outcome 1 = .invalidPasswordError ∨ outcome 1 = .invalidCatalogNameError) :
    (create_db_pool outcome jitter true retries base_delay).run.attemptsMade = 1
    ∧ (create_db_pool outcome jitter true retries base_delay).run.waits = []
    ∧ (create_db_pool outcome jitter true retries base_delay).run.success = none
    ∧ (create_db_pool outcome jitter true retries base_delay).background_cancels = 1
    ∧ (create_db_pool outcome jitter true retries base_delay).fatal_exit = true := by
  obtain ⟨f, rfl⟩ : ∃ f, retries = f + 1 := ⟨retries - 1, by omega⟩
  rcases h1 with h1 | h1 <;>
    simp [create_db_pool, create_db_pool_loop, h1, cancel_background_tasks]

/-- C8 witness: a first-attempt `InvalidPasswordError` with the default
retry budget of 5. -/
theorem create_db_pool_auth_failure_no_retry_witness :
    (1 : Nat) ≤ 5
    ∧ (create_db_pool (fun _ : Nat => ConnectOutcome.invalidPasswordError)
        (fun _ : Nat => (0 : Rat)) true 5 1).run.attemptsMade = 1
    ∧ (create_db_pool (fun _ : Nat => ConnectOutcome.invalidPasswordError)
        (fun _ : Nat => (0 : Rat)) true 5 1).run.waits = []
    ∧ (create_db_pool (fun _ : Nat => ConnectOutcome.invalidPasswordError)
        (fun _ : Nat => (0 : Rat)) true 5 1).run.success = none
    ∧ (create_db_pool (fun _ : Nat => ConnectOutcome.invalidPasswordError)
        (fun _ : Nat => (0 : Rat)) true 5 1).background_cancels = 1
    ∧ (create_db_pool (fun _ : Nat => ConnectOutcome.invalidPasswordError)
        (fun _ : Nat => (0 : Rat)) true 5 1).fatal_exit = true :=
  ⟨by norm_num,
    create_db_pool_auth_failure_no_retry (fun _ : Nat => ConnectOutcome.invalidPasswordError)
      (fun _ : Nat => (0 : Rat)) 5 1 (by norm_num) (Or.inl rfl)⟩

/-- C9: when the duplicate-existence check inside signup raises a
database exception, `check_user_exists` returns `None` — the same result
as when no matching user exists — so `signup_with_password` does not
report the database failure and proceeds to the user-creation step: its
outcome is exactly the outcome of a signup whose duplicate check ran
cleanly against a store with no match. -/
theorem check_user_exists_swallows_db_error
    (msg : String) (store : List UserRecord) (username email : String)
    (s : StateObject) (c2 io : DbOutcome) (fresh : String)
    (hash : String → String) (password : String)
    (hnomatch : ∀ u ∈ store, u.username ≠ username ∧ u.email ≠ email) :
    (UserDataAccessLayer.check_user_exists (.postgresError msg) store username email s).1 = none
    ∧ (UserDataAccessLayer.check_user_exists .ok store username email s).1 = none
    ∧ UserDataService.signup_with_password (.postgresError msg) c2 io store fresh hash
        username email password s
      = UserDataService.signup_with_password .ok c2 io store fresh hash
          username email password s := by
  have hfind : store.find?
      (fun u => decide (u.username = username) || decide (u.email = email)) = none := by
    rw [List.find?_eq_none]
    intro u hu
    simp [(hnomatch u hu).1, (hnomatch u hu).2]
  have hbind : UserDataService.signup_create_user_call_binds = false := by decide
  refine ⟨rfl, ?_, ?_⟩
  · simp [UserDataAccessLayer.check_user_exists, hfind]
  · simp [UserDataService.signup_with_password, UserDataAccessLayer.check_user_exists,
      hfind, hbind]

/-- C9 witness: a store holding only `bob` has no match for `alice`, and
the theorem applies. -/
theorem check_user_exists_swallows_db_error_witness :
    (∀ u ∈ [(⟨"u1", "bob", "b@example.com", some "h", true, true⟩ : UserRecord)],
        u.username ≠ "alice" ∧ u.email ≠ "a@example.com")
    ∧ ((UserDataAccessLayer.check_user_exists (.postgresError "boom")
        [⟨"u1", "bob", "b@example.com", some "h", true, true⟩] "alice" "a@example.com"
        StateObject.initial).1 = none
      ∧ (UserDataAccessLayer.check_user_exists .ok
          [⟨"u1", "bob", "b@example.com", some "h", true, true⟩] "alice" "a@example.com"
          StateObject.initial).1 = none
      ∧ UserDataService.signup_with_password (.postgresError "boom") .ok .ok
          [⟨"u1", "bob", "b@example.com", some "h", true, true⟩] "u2" (fun p => p)
          "alice" "a@example.com" "pw" StateObject.initial
        = UserDataService.signup_with_password .ok .ok .ok
            [⟨"u1", "bob", "b@example.com", some "h", true, true⟩] "u2" (fun p => p)
            "alice" "a@example.com" "pw" StateObject.initial) :=
  ⟨by decide,
    check_user_exists_swallows_db_error "boom"
      [⟨"u1", "bob", "b@example.com", some "h", true, true⟩] "alice" "a@example.com"
      StateObject.initial .ok .ok "u2" (fun p => p) "pw" (by decide)⟩

/-- C10: neither `create_user` nor `get_by_email_or_username` ever
transitions `database_health` from FULLY_DEGRADED back to NONE: the
reset-to-NONE writes are guarded by the current level not being
FULLY_DEGRADED, so from a FULLY_DEGRADED start the resulting level is
never NONE, whatever the operation's outcome (in particular on every
success path). -/
theorem dal_never_clears_fully_degraded
    (s : StateObject) (co io go : DbOutcome) (store : List UserRecord)
    (uid un em ph ident : String) (v : Bool)
    (h : s.database_health = ComponentDegradationLevel.FULLY_DEGRADED) :
    (UserDataAccessLayer.create_user co io store uid un em ph v s).2.2.database_health
      ≠ ComponentDegradationLevel.NONE
    ∧ (UserDataAccessLayer.get_by_email_or_username go store ident s).2.database_health
      ≠ ComponentDegradationLevel.NONE := by
  refine ⟨?_, ?_⟩
  · cases co <;> cases io <;>
      simp only [UserDataAccessLayer.create_user, UserDataAccessLayer.check_user_exists] <;>
      simp [h] <;> (try split) <;> simp [h]
  · cases go <;>
      simp only [UserDataAccessLayer.get_by_email_or_username] <;>
      simp [h] <;> (try split) <;> simp [h]

/-- C10 witness: starting from a FULLY_DEGRADED database level, a clean
`create_user` and a clean `get_by_email_or_username` leave the level
non-NONE. -/
theorem dal_never_clears_fully_degraded_witness :
    ({ database_health := ComponentDegradationLevel.FULLY_DEGRADED } : StateObject).database_health
      = ComponentDegradationLevel.FULLY_DEGRADED
    ∧ ((UserDataAccessLayer.create_user .ok .ok [] "u1" "alice" "a@example.com" "h" false
        { database_health := ComponentDegradationLevel.FULLY_DEGRADED }).2.2.database_health
      ≠ ComponentDegradationLevel.NONE
    ∧ (UserDataAccessLayer.get_by_email_or_username .ok [] "alice"
        { database_health := ComponentDegradationLevel.FULLY_DEGRADED }).2.database_health
      ≠ ComponentDegradationLevel.NONE) :=
  ⟨rfl,
    dal_never_clears_fully_degraded
      { database_health := ComponentDegradationLevel.FULLY_DEGRADED }
      .ok .ok .ok [] "u1" "alice" "a@example.com" "h" "alice" false rfl⟩

namespace Configuration

/-- When the environment variable is set, `_lookup_value` returns its raw
string and consults neither the file getter nor the schema default. -/
theorem lookup_value_env_hit (env : List (String × String)) (has : Bool)
    (g : String → String → Except String (Option PyValue)) (sect : String)
    (item : ConfigurationSetupItem) (vEnv : String)
    (henv : env_get env (env_var_name sect item.item_name) = some vEnv) :
    lookup_value env has g sect item = Except.ok (some (PyValue.str vEnv)) := by
  simp [lookup_value, henv]

/-- A singleton environment resolves its own variable. -/
theorem env_get_singleton (n v : String) : env_get [(n, v)] n = some v := by
  simp [env_get]

/-- When the environment variable is set, resolving an item is the same
as resolving it with no file and no schema default against an
environment holding just that variable: file and default are ignored. -/
theorem read_item_env_hit (env : List (String × String)) (has : Bool)
    (fp : FileParser) (sect : String) (item : ConfigurationSetupItem)
    (vEnv : String)
    (henv : env_get env (env_var_name sect item.item_name) = some vEnv) :
    read_item env has fp sect item
      = read_item [(env_var_name sect item.item_name, vEnv)] false
          empty_file_getters sect { item with default_value := none } := by
  obtain ⟨iname, itype, vv, req, dflt⟩ := item
  have h1 : ∀ g, lookup_value env has g sect ⟨iname, itype, vv, req, dflt⟩
      = Except.ok (some (PyValue.str vEnv)) :=
    fun g => lookup_value_env_hit env has g sect _ vEnv henv
  have h2 : ∀ g, lookup_value [(env_var_name sect iname, vEnv)] false g sect
      ⟨iname, itype, vv, req, none⟩ = Except.ok (some (PyValue.str vEnv)) :=
    fun g => lookup_value_env_hit _ false g sect _ vEnv (env_get_singleton _ _)
  cases itype <;>
    simp [read_item, read_int, read_str, read_bool, read_float, read_uint,
      h1, h2, ensure_required]

/-- Resolving a concatenation of item lists resolves the first part, then
continues with the second from the resulting dict (errors abort). -/
theorem read_section_items_append (env : List (String × String)) (has : Bool)
    (fp : FileParser) (sect : String) (l1 l2 : List ConfigurationSetupItem)
    (m : ConfigItems) :
    read_section_items env has fp sect m (l1 ++ l2)
      = match read_section_items env has fp sect m l1 with
        | Except.error e => Except.error e
        | Except.ok m' => read_section_items env has fp sect m' l2 := by
  induction l1 generalizing m with
  | nil => simp [read_section_items]
  | cons it rest ih =>
    simp only [List.cons_append, read_section_items]
    cases read_item env has fp sect it <;> simp [ih]

/-- Resolving a concatenation of section lists resolves the first part,
then continues with the second from the resulting dict. -/
theorem read_configuration_append (env : List (String × String)) (has : Bool)
    (fp : FileParser) (l1 l2 : List (String × List ConfigurationSetupItem))
    (m : ConfigItems) :
    read_configuration env has fp m (l1 ++ l2)
      = match read_configuration env has fp m l1 with
        | Except.error e => Except.error e
        | Except.ok m' => read_configuration env has fp m' l2 := by
  induction l1 generalizing m with
  | nil => simp [read_configuration]
  | cons p rest ih =>
    obtain ⟨sname, items⟩ := p
    simp only [List.cons_append, read_configuration]
    cases read_section_items env has fp sname m items <;> simp [ih]

/-- Decomposing a successful resolution of an item-list concatenation. -/
theorem read_section_items_append_ok (env : List (String × String)) (has : Bool)
    (fp : FileParser) (sect : String) (l1 l2 : List ConfigurationSetupItem)
    (m m' : ConfigItems)
    (h : read_section_items env has fp sect m (l1 ++ l2) = Except.ok m') :
    ∃ mm, read_section_items env has fp sect m l1 = Except.ok mm
      ∧ read_section_items env has fp sect mm l2 = Except.ok m' := by
  rw [read_section_items_append] at h
  cases hh : read_section_items env has fp sect m l1 with
  | error e => rw [hh] at h; simp at h
  | ok mm => rw [hh] at h; exact ⟨mm, rfl, h⟩

/-- Decomposing a successful resolution that starts with one item. -/
theorem read_section_items_cons_ok (env : List (String × String)) (has : Bool)
    (fp : FileParser) (sect : String) (item : ConfigurationSetupItem)
    (l : List ConfigurationSetupItem) (m m' : ConfigItems)
    (h : read_section_items env has fp sect m (item :: l) = Except.ok m') :
    ∃ v, read_item env has fp sect item = Except.ok v
      ∧ read_section_items env has fp sect (store_entry m sect item.item_name v) l
        = Except.ok m' := by
  simp only [read_section_items] at h
  cases hh : read_item env has fp sect item with
  | error e => rw [hh] at h; simp at h
  | ok v => rw [hh] at h; exact ⟨v, rfl, h⟩

/-- Decomposing a successful resolution of a section-list concatenation. -/
theorem read_configuration_append_ok (env : List (String × String)) (has : Bool)
    (fp : FileParser) (l1 l2 : List (String × List ConfigurationSetupItem))
    (m m' : ConfigItems)
    (h : read_configuration env has fp m (l1 ++ l2) = Except.ok m') :
    ∃ mm, read_configuration env has fp m l1 = Except.ok mm
      ∧ read_configuration env has fp mm l2 = Except.ok m' := by
  rw [read_configuration_append] at h
  cases hh : read_configuration env has fp m l1 with
  | error e => rw [hh] at h; simp at h
  | ok mm => rw [hh] at h; exact ⟨mm, rfl, h⟩

/-- Decomposing a successful resolution that starts with one section. -/
theorem read_configuration_cons_ok (env : List (String × String)) (has : Bool)
    (fp : FileParser) (sname : String) (items : List ConfigurationSetupItem)
    (rest : List (String × List ConfigurationSetupItem)) (m m' : ConfigItems)
    (h : read_configuration env has fp m ((sname, items) :: rest) = Except.ok m') :
    ∃ mm, read_section_items env has fp sname m items = Except.ok mm
      ∧ read_configuration env has fp mm rest = Except.ok m' := by
  simp only [read_configuration] at h
  cases hh : read_section_items env has fp sname m items with
  | error e => rw [hh] at h; simp at h
  | ok mm => rw [hh] at h; exact ⟨mm, rfl, h⟩

/-- Resolving items whose names all differ from a given key leaves that
key's dict entry unchanged. -/
theorem read_section_items_preserve (env : List (String × String)) (has : Bool)
    (fp : FileParser) (sect s' i' : String) :
    ∀ (l : List ConfigurationSetupItem) (m m' : ConfigItems),
      read_section_items env has fp sect m l = Except.ok m' →
      (∀ it ∈ l, ¬(s' = sect ∧ i' = it.item_name)) →
      m' s' i' = m s' i' := by
  intro l
  induction l with
  | nil =>
    intro m m' hrun hk
    simp only [read_section_items, Except.ok.injEq] at hrun
    rw [← hrun]
  | cons it rest ih =>
    intro m m' hrun hk
    simp only [read_section_items] at hrun
    cases hread : read_item env has fp sect it with
    | error e => rw [hread] at hrun; simp at hrun
    | ok v =>
      rw [hread] at hrun
      have hmid := ih (store_entry m sect it.item_name v) m' hrun
        (fun x hx => hk x (List.mem_cons_of_mem _ hx))
      rw [hmid]
      have hhead := hk it (List.mem_cons_self _ _)
      simp [store_entry, hhead]

/-- Resolving sections that never touch a given (section, item) key leave
that key's dict entry unchanged. -/
theorem read_configuration_preserve (env : List (String × String)) (has : Bool)
    (fp : FileParser) (s' i' : String) :
    ∀ (secs : List (String × List ConfigurationSetupItem)) (m m' : ConfigItems),
      read_configuration env has fp m secs = Except.ok m' →
      (∀ p ∈ secs, ∀ it ∈ p.2, ¬(s' = p.1 ∧ i' = it.item_name)) →
      m' s' i' = m s' i' := by
  intro secs
  induction secs with
  | nil =>
    intro m m' hrun hk
    simp only [read_configuration, Except.ok.injEq] at hrun
    rw [← hrun]
  | cons p rest ih =>
    obtain ⟨sname, items⟩ := p
    intro m m' hrun hk
    simp only [read_configuration] at hrun
    cases hsec : read_section_items env has fp sname m items with
    | error e => rw [hsec] at hrun; simp at hrun
    | ok m1 =>
      rw [hsec] at hrun
      have h2 := ih m1 m' hrun (fun q hq => hk q (List.mem_cons_of_mem _ hq))
      rw [h2]
      exact read_section_items_preserve env has fp sname s' i' items m m1 hsec
        (fun it hit => by
          have := hk (sname, items) (List.mem_cons_self _ _) it hit
          simpa using this)

/-- An item with no environment variable, no file value and no schema
default fails `_ensure_required` when required, with the message naming
the exact `section::item`. -/
theorem read_item_missing (env : List (String × String)) (has : Bool)
    (fp : FileParser) (sect : String) (item : ConfigurationSetupItem)
    (henv : env_get env (env_var_name sect item.item_name) = none)
    (hget : fp.get sect item.item_name = Except.ok none)
    (hgetint : fp.getint sect item.item_name = Except.ok none)
    (hgetbool : fp.getboolean sect item.item_name = Except.ok none)
    (hgetfloat : fp.getfloat sect item.item_name = Except.ok none)
    (hdef : item.default_value = none)
    (hreq : item.is_required = true) :
    read_item env has fp sect item
      = Except.error (config_missing_msg sect item.item_name) := by
  have hlk : ∀ g, g sect item.item_name = Except.ok none →
      lookup_value env has g sect item = Except.ok none := by
    intro g hg
    cases has <;> simp [lookup_value, henv, hg, hdef]
  cases hty : item.item_type <;>
    simp [read_item, read_int, read_str, read_bool, read_float, read_uint, hty,
      hlk _ hget, hlk _ hgetint, hlk _ hgetbool, hlk _ hgetfloat,
      ensure_required, hreq]

/-- C4: for every declared item, when the environment variable
`UPPERCASE(section)_UPPERCASE(item)` is set (here to `vEnv`) and the file
also holds a value for `section.item` (here `wFile`, different from the
environment's), the value returned by `get_entry` after a successful
`process_config` equals the one derived from the environment variable
alone: it equals resolving the item with no config file and no schema
default, so the file value and the default are ignored.  The `hipost` /
`hpost` hypotheses say no later declaration overwrites the same key. -/
theorem get_entry_env_overrides_file_and_default
    (env : List (String × String)) (has : Bool) (fp : FileParser)
    (sect : String) (item : ConfigurationSetupItem)
    (pre post : List (String × List ConfigurationSetupItem))
    (ipre ipost : List ConfigurationSetupItem)
    (m : ConfigItems) (vEnv : String) (wFile : PyValue)
    (henv : env_get env (env_var_name sect item.item_name) = some vEnv)
    (hfile : fp.get sect item.item_name = Except.ok (some wFile))
    (hdiff : wFile ≠ PyValue.str vEnv)
    (hrun : process_config env has fp (pre ++ (sect, ipre ++ item :: ipost) :: post)
      = Except.ok m)
    (hipost : ∀ it ∈ ipost, it.item_name ≠ item.item_name)
    (hpost : ∀ p ∈ post, ∀ it ∈ p.2, p.1 ≠ sect ∨ it.item_name ≠ item.item_name) :
    get_entry m sect item.item_name
      = read_item [(env_var_name sect item.item_name, vEnv)] false
          empty_file_getters sect { item with default_value := none } := by
  unfold process_config at hrun
  obtain ⟨m1, hpre, hrest⟩ := read_configuration_append_ok env has fp pre _ _ _ hrun
  obtain ⟨m2, hsec, hpost2⟩ := read_configuration_cons_ok env has fp sect _ post m1 m hrest
  obtain ⟨ma, hip, hmid⟩ := read_section_items_append_ok env has fp sect ipre _ m1 m2 hsec
  obtain ⟨v, hit, htail⟩ := read_section_items_cons_ok env has fp sect item ipost ma m2 hmid
  have hk1 : ∀ it ∈ ipost, ¬(sect = sect ∧ item.item_name = it.item_name) := by
    intro it hmem
    have := hipost it hmem
    tauto
  have h2 : m2 sect item.item_name = some v := by
    rw [read_section_items_preserve env has fp sect sect item.item_name ipost
      (store_entry ma sect item.item_name v) m2 htail hk1]
    simp [store_entry]
  have hk2 : ∀ p ∈ post, ∀ it ∈ p.2, ¬(sect = p.1 ∧ item.item_name = it.item_name) := by
    intro p hp it hmem
    have := hpost p hp it hmem
    tauto
  have h3 : m sect item.item_name = some v := by
    rw [read_configuration_preserve env has fp sect item.item_name post m2 m hpost2 hk2]
    exact h2
  rw [← read_item_env_hit env has fp sect item vEnv henv, hit]
  simp [get_entry, h3]

/-- C4 witness: an int item `app::port`, environment value `8080`, file
value `9090`; the resolved entry is the environment-derived 8080. -/
theorem get_entry_env_overrides_file_and_default_witness :
    env_get [("APP_PORT", "8080")] (env_var_name "app" "port") = some "8080"
    ∧ (⟨fun _ _ => Except.ok (some (PyValue.str "9090")),
        fun _ _ => Except.ok (some (PyValue.int 9090)),
        fun _ _ => Except.ok none,
        fun _ _ => Except.ok none⟩ : FileParser).get "app" "port"
      = Except.ok (some (PyValue.str "9090"))
    ∧ PyValue.str "9090" ≠ PyValue.str "8080"
    ∧ get_entry (store_entry empty_config_items "app" "port" (some (PyValue.int 8080)))
        "app" "port"
      = read_item [(env_var_name "app" "port", "8080")] false empty_file_getters "app"
          ⟨"port", .INT, none, true, none⟩ :=
  ⟨rfl, rfl, by decide,
    get_entry_env_overrides_file_and_default [("APP_PORT", "8080")] true
      ⟨fun _ _ => Except.ok (some (PyValue.str "9090")),
        fun _ _ => Except.ok (some (PyValue.int 9090)),
        fun _ _ => Except.ok none,
        fun _ _ => Except.ok none⟩
      "app" ⟨"port", .INT, none, true, some (PyValue.int 1)⟩ [] [] [] []
      (store_entry empty_config_items "app" "port" (some (PyValue.int 8080)))
      "8080" (PyValue.str "9090") rfl rfl (by decide) rfl
      (fun it hmem => absurd hmem (List.not_mem_nil it))
      (fun p hp => absurd hp (List.not_mem_nil p))⟩

/-- C6: a declared required item with no environment variable, no file
value and no schema default makes the whole `process_config` call fail
with a ConfigError naming that exact `section::item` (the items and
sections resolved before it notwithstanding). -/
theorem process_config_missing_required
    (env : List (String × String)) (has : Bool) (fp : FileParser)
    (sect : String) (item : ConfigurationSetupItem)
    (pre post : List (String × List ConfigurationSetupItem))
    (ipre ipost : List ConfigurationSetupItem) (m1 m2 : ConfigItems)
    (henv : env_get env (env_var_name sect item.item_name) = none)
    (hget : fp.get sect item.item_name = Except.ok none)
    (hgetint : fp.getint sect item.item_name = Except.ok none)
    (hgetbool : fp.getboolean sect item.item_name = Except.ok none)
    (hgetfloat : fp.getfloat sect item.item_name = Except.ok none)
    (hdef : item.default_value = none)
    (hreq : item.is_required = true)
    (hpre : read_configuration env has fp empty_config_items pre = Except.ok m1)
    (hipre : read_section_items env has fp sect m1 ipre = Except.ok m2) :
    process_config env has fp (pre ++ (sect, ipre ++ item :: ipost) :: post)
      = Except.error (config_missing_msg sect item.item_name) := by
  have eItem := read_item_missing env has fp sect item henv hget hgetint hgetbool
    hgetfloat hdef hreq
  have eCons : read_section_items env has fp sect m2 (item :: ipost)
      = Except.error (config_missing_msg sect item.item_name) := by
    simp only [read_section_items, eItem]
  have eApp : read_section_items env has fp sect m1 (ipre ++ item :: ipost)
      = Except.error (config_missing_msg sect item.item_name) := by
    rw [read_section_items_append, hipre]
    exact eCons
  have eSec : read_configuration env has fp m1 ((sect, ipre ++ item :: ipost) :: post)
      = Except.error (config_missing_msg sect item.item_name) := by
    simp only [read_configuration, eApp]
  unfold process_config
  rw [read_configuration_append, hpre]
  exact eSec

/-- C6 witness: the required int item `db::port` with empty environment,
a file parser with no values, and no default. -/
theorem process_config_missing_required_witness :
    env_get [] (env_var_name "db" "port") = none
    ∧ (⟨"port", .INT, none, true, none⟩ : ConfigurationSetupItem).is_required = true
    ∧ process_config [] true empty_file_getters [("db", [⟨"port", .INT, none, true, none⟩])]
      = Except.error (config_missing_msg "db" "port") :=
  ⟨rfl, rfl,
    process_config_missing_required [] true empty_file_getters "db"
      ⟨"port", .INT, none, true, none⟩ [] [] [] [] empty_config_items empty_config_items
      rfl rfl rfl rfl rfl rfl rfl rfl rfl⟩

/-- C5 counterexample: the claim says any candidate string that is not
case-insensitively equal to a member of {true,1,yes,on,false,0,no,off}
raises a ConfigError.  The candidate `" true "` (whitespace-padded, set
through the environment) equals no member case-insensitively, yet
`_read_bool` strips it first and resolves it to boolean true. -/
theorem read_bool_strip_counterexample :
    (∀ t ∈ true_strings ++ false_strings, case_insensitive_eq " true " t = false)
    ∧ read_bool [("SECT_FLAG", " true ")] false empty_file_getters "sect"
        ⟨"flag", .BOOLEAN, none, true, none⟩
      = Except.ok (some (PyValue.bool true)) := by
  constructor
  · decide
  · rfl

/-- C5 (amended): for a boolean-typed item whose candidate is the string
`v` (here supplied through the environment variable), `_read_bool`
resolves `v` by whitespace-stripping and lowercasing it first: the result
is true when the stripped-lowered form is in {true,1,yes,on}, false when
it is in {false,0,no,off}, and a ConfigError naming the raw candidate
otherwise. -/
theorem read_bool_candidate_cases
    (env : List (String × String)) (has : Bool) (fp : FileParser)
    (sect : String) (item : ConfigurationSetupItem) (v : String)
    (henv : env_get env (env_var_name sect item.item_name) = some v) :
    read_bool env has fp sect item
      = (if true_strings.contains (py_lower (py_strip v)) then
          Except.ok (some (PyValue.bool true))
        else if false_strings.contains (py_lower (py_strip v)) then
          Except.ok (some (PyValue.bool false))
        else
          Except.error (invalid_bool_msg sect item.item_name v)) := by
  simp [read_bool, lookup_value_env_hit env has fp.getboolean sect item v henv,
    ensure_required]

/-- C5 witness: the candidate `"Yes"` resolves to boolean true. -/
theorem read_bool_candidate_cases_witness :
    env_get [("SECT_FLAG", "Yes")] (env_var_name "sect" "flag") = some "Yes"
    ∧ read_bool [("SECT_FLAG", "Yes")] false empty_file_getters "sect"
        ⟨"flag", .BOOLEAN, none, true, none⟩
      = (if true_strings.contains (py_lower (py_strip "Yes")) then
          Except.ok (some (PyValue.bool true))
        else if false_strings.contains (py_lower (py_strip "Yes")) then
          Except.ok (some (PyValue.bool false))
        else
          Except.error (invalid_bool_msg "sect" "flag" "Yes")) :=
  ⟨rfl,
    read_bool_candidate_cases [("SECT_FLAG", "Yes")] false empty_file_getters "sect"
      ⟨"flag", .BOOLEAN, none, true, none⟩ "Yes" rfl⟩

end Configuration

end WeaveFeed
